import Mathlib

/-!
Shallow embedding of `build_colab.py` (Block-Sparse-Attention repository).

The script is a linear build orchestrator: it checks the notebook
environment, installs build dependencies via pip, cleans stale build
artifacts, invokes `setup.py bdist_wheel` in a subprocess with an augmented
environment, locates `dist/*.whl`, and copies the wheel(s) into a
caller-supplied output directory.

Modelling decisions:
- the file system is a pair of finite lists: directory paths and
  (file path, byte list) entries; paths are strings relative to the working
  directory (absolute paths start with a slash);
- subprocesses are oracles passed in as functions: `pip : String → Nat`
  gives the exit code of each `pip install --upgrade <dep>` call, and
  `build : Env → FS → Nat × FS` gives the exit code and resulting file
  system of the `setup.py bdist_wheel` call run with environment `Env`;
- `sys.exit(code)` and uncaught Python exceptions are an `ExitKind` carried
  in `Except`; the interpreter maps an uncaught exception to process exit
  code 1 (`exitCode`);
- each `print(...)` call contributes one string to an output trace; each
  subprocess invocation contributes one `Call` to a call trace; each
  `shutil.copy2` contributes one (src, dest) pair to a copy trace.
-/

/-! ### String and path helpers (kernel-friendly, over `String.data`) -/

/-- `pre` is a prefix of `s`. -/
def strStartsWith (s pre : String) : Bool :=
  pre.data.isPrefixOf s.data

/-- `suf` is a suffix of `s`. -/
def strEndsWith (s suf : String) : Bool :=
  suf.data.isSuffixOf s.data

/-- `s` contains character `c`. -/
def strContainsChar (s : String) (c : Char) : Bool :=
  s.data.contains c

/-- Drop the first `n` characters of `s`. -/
def strDrop (s : String) (n : Nat) : String :=
  String.mk (s.data.drop n)

/-- `needle` occurs as a contiguous infix of a character list. -/
def listInfix (needle : List Char) : List Char → Bool
  | [] => needle.isEmpty
  | c :: cs => needle.isPrefixOf (c :: cs) || listInfix needle cs

/-- `needle` occurs as a contiguous substring of `hay`. -/
def hasSubstring (needle hay : String) : Bool :=
  listInfix needle.data hay.data

/-- One step of splitting at slashes: either start a new empty segment or
extend the first segment. -/
def consSeg (c : Char) (ss : List (List Char)) : List (List Char) :=
  if c = '/' then [] :: ss
  else
    match ss with
    | s :: rest => (c :: s) :: rest
    | [] => [[c]]

/-- Split a character list at every slash character. Never returns `[]`. -/
def splitSegs : List Char → List (List Char)
  | [] => [[]]
  | c :: cs => consSeg c (splitSegs cs)

/-- Path components of a path string (split at slashes). -/
def splitPath (p : String) : List String :=
  (splitSegs p.data).map (fun l => String.mk l)

/-- Join character-list segments with slashes (inverse of `splitSegs`). -/
def joinData : List (List Char) → List Char
  | [] => []
  | [s] => s
  | s :: rest => s ++ '/' :: joinData rest

/-- Join path components with slashes (inverse of `splitPath`). -/
def joinPath : List String → String
  | [] => ""
  | [s] => s
  | s :: rest => s ++ "/" ++ joinPath rest

/-- Final path component, as Python `Path(p).name` for the paths produced by
`dist` globbing. -/
def baseName (p : String) : String :=
  (splitPath p).getLastD ""

/-- All prefixes of a path, ending with the path itself: the directories
`Path(p).mkdir(parents=True)` ensures exist. -/
def ancestors (p : String) : List String :=
  let parts := splitPath p
  (List.range parts.length).map (fun k => joinPath (parts.take (k + 1)))

/-- Model of `Path(p).absolute()`: prepend the working directory unless the
path is already absolute (no normalisation, as in pathlib). -/
def absoluteOf (cwd p : String) : String :=
  if strStartsWith p "/" then p else cwd ++ "/" ++ p

/-- Non-recursive glob pattern match for the patterns appearing in the
script (`build`, `dist`, `*.egg-info`, `*.whl`): a leading `*` matches any
(possibly empty) run of characters of a non-hidden name; otherwise the
pattern is a literal name. Hidden names (leading dot) are not matched by
`*`, as in Python's glob. -/
def globMatch (pat p : String) : Bool :=
  if strStartsWith pat "*" then
    strEndsWith p (strDrop pat 1) && !strStartsWith p "."
  else p == pat

/-- A path names an entry directly in the current working directory: it has
a single component (no slash). `Path('.').glob(pattern)` only yields such
entries for the script's patterns. -/
def isCwdEntry (p : String) : Bool :=
  !strContainsChar p '/'

/-! ### File system model -/

/-- File contents as a list of bytes (values, not machine words, since the
script never inspects bytes: it only copies them). -/
abbrev Bytes := List Nat

/-- A file system: the set of existing directory paths and the existing
files with their contents. Paths are strings; entries directly in the
working directory have no slash. -/
structure FS where
  dirs : List String
  files : List (String × Bytes)
deriving DecidableEq

/-- The empty file system. -/
def FS.empty : FS := ⟨[], []⟩

/-- `p` exists as a directory. -/
abbrev FS.isDir (fs : FS) (p : String) : Prop := p ∈ fs.dirs

/-- `p` exists as a file. -/
abbrev FS.isFile (fs : FS) (p : String) : Prop := (fs.files.lookup p).isSome = true

/-- Add a directory path if not already present. -/
def FS.addDir (fs : FS) (d : String) : FS :=
  if d ∈ fs.dirs then fs else { fs with dirs := fs.dirs ++ [d] }

/-- Write or overwrite a file. -/
def FS.setFile (fs : FS) (p : String) (b : Bytes) : FS :=
  { fs with files := (fs.files.filter (fun f => f.1 ≠ p)) ++ [(p, b)] }

/-- Model of `shutil.rmtree p` for a directory `p`: removes `p` and every
entry below it. -/
def FS.rmtree (fs : FS) (p : String) : FS :=
  { dirs := fs.dirs.filter (fun d => d ≠ p ∧ strStartsWith d (p ++ "/") = false),
    files := fs.files.filter (fun f => f.1 ≠ p ∧ strStartsWith f.1 (p ++ "/") = false) }

/-- Model of `Path.unlink` for a file `p`. -/
def FS.unlink (fs : FS) (p : String) : FS :=
  { fs with files := fs.files.filter (fun f => f.1 ≠ p) }

/-- The entries of the current working directory, as enumerated by
`Path('.').glob` candidates: every existing single-component path. -/
def FS.cwdEntries (fs : FS) : List String :=
  fs.dirs.filter (fun p => isCwdEntry p) ++
    (fs.files.map Prod.fst).filter (fun p => isCwdEntry p)

/-! ### Process model -/

/-- How a run of the interpreter terminates early: a `sys.exit(code)` call,
or an uncaught Python exception. `calledProcessError` carries the child
exit code held by `subprocess.CalledProcessError`. -/
inductive ExitKind where
  | sysExit (code : Nat)
  | calledProcessError (returncode : Nat)
  | fileNotFoundError
  | fileExistsError
  | sameFileError
  | isADirectoryError
deriving DecidableEq

/-- Process exit status as observed by the shell: `sys.exit(code)` exits
with `code`; any uncaught exception exits with 1; running off the end of
`main` exits with 0. -/
def exitCode (r : Except ExitKind Unit) : Nat :=
  match r with
  | .ok _ => 0
  | .error (.sysExit c) => c
  | .error _ => 1

/-- A process environment table (dictionary semantics: `lookup` finds the
binding of a key). -/
abbrev Env := List (String × String)

/-- Model of `env[k] = v` on a copy of a dictionary: bind `k` to `v`,
shadowing any previous binding. -/
def setEnv (e : Env) (k v : String) : Env :=
  (k, v) :: e.filter (fun kv => kv.1 ≠ k)

/-- The subprocess invocations the script can make, with the arguments that
distinguish them: which package a pip call upgrades, and the environment
handed to the `setup.py bdist_wheel` call. -/
inductive Call where
  | pipInstall (dep : String)
  | setupBdistWheel (env : Env)
deriving DecidableEq

/-- Results of the introspection probes in `check_colab_environment`:
whether `google.colab` imports, the Python version triple, the torch
version if `torch` imports, and the CUDA facts printed when available. -/
structure Probe where
  inColab : Bool
  pyMajor : Nat
  pyMinor : Nat
  pyMicro : Nat
  torchVersion : Option String
  cudaAvailable : Bool
  cudaVersion : String
  cudaDeviceName : String

/-! ### The script, function by function -/

/-- The sixty-character separator line `"=" * 60`. -/
def sep60 : String := String.mk (List.replicate 60 '=')

/-- The module docstring (`__doc__`), exactly as written in
`build_colab.py` lines 2-13 (starts with the newline after the opening
quotes; `\x27` is the apostrophe). -/
def moduleDoc : String :=
  "\nBuild script for Google Colab A100 environment.\nBuilds the block_sparse_attn wheel and saves it to Google Drive.\n\nUsage in Colab:\n    # Mount Google Drive\n    from google.colab import drive\n    drive.mount(\x27/content/drive\x27)\n    \n    # Run the build script\n    !python build_colab.py /content/drive/MyDrive/path/to/wheels\n"

/-- `check_colab_environment` (lines 22-59): prints a report; exits 1 only
when `torch` does not import. Reads `CUDA_HOME` from the process
environment (an empty value is falsy in Python, hence "not set"). -/
def check_colab_environment (probe : Probe) (osEnv : Env) :
    Except ExitKind Unit × List String :=
  let out0 := [sep60, "Checking Colab Environment", sep60]
  let colabLine :=
    if probe.inColab then "✓ Running in Google Colab"
    else "⚠ Warning: Not running in Google Colab"
  let pyLine := "✓ Python version: " ++ toString probe.pyMajor ++ "." ++
    toString probe.pyMinor ++ "." ++ toString probe.pyMicro
  match probe.torchVersion with
  | none =>
    (.error (.sysExit 1), out0 ++ [colabLine, pyLine, "✗ PyTorch not installed"])
  | some v =>
    let torchLines := ("✓ PyTorch version: " ++ v) ::
      (if probe.cudaAvailable then
        ["✓ CUDA available: " ++ probe.cudaVersion,
         "✓ CUDA device: " ++ probe.cudaDeviceName]
      else ["⚠ CUDA not available"])
    let cudaHomeLine :=
      match osEnv.lookup "CUDA_HOME" with
      | some h => if h = "" then "⚠ CUDA_HOME not set" else "✓ CUDA_HOME: " ++ h
      | none => "⚠ CUDA_HOME not set"
    (.ok (), out0 ++ [colabLine, pyLine] ++ torchLines ++ [cudaHomeLine, ""])

/-- The hard-coded dependency list of `install_build_dependencies`
(lines 68-73). -/
def dependencies : List String :=
  ["setuptools>=68.0.0", "wheel", "ninja", "packaging"]

/-- The loop of `install_build_dependencies` (lines 75-77): one
`subprocess.check_call` per dependency, in order; a non-zero pip exit
raises `CalledProcessError`, which nothing in the script catches. -/
def installLoop (pip : String → Nat) :
    List String → Except ExitKind Unit × List String × List Call
  | [] => (.ok (), [], [])
  | d :: ds =>
    let line := "Installing " ++ d ++ "..."
    if pip d = 0 then
      let rest := installLoop pip ds
      (rest.1, line :: rest.2.1, .pipInstall d :: rest.2.2)
    else
      (.error (.calledProcessError (pip d)), [line], [.pipInstall d])

/-- `install_build_dependencies` (lines 62-79). -/
def install_build_dependencies (pip : String → Nat) :
    Except ExitKind Unit × List String × List Call :=
  let r := installLoop pip dependencies
  let out := [sep60, "Installing Build Dependencies", sep60] ++ r.2.1 ++
    (match r.1 with
     | .ok _ => ["✓ Build dependencies installed\n"]
     | .error _ => [])
  (r.1, out, r.2.2)

/-- Model of `output_path.mkdir(parents=True, exist_ok=True)` (line 90):
creates the directory and its ancestors; an existing directory is fine
(`exist_ok`), but a file already occupying the path raises
`FileExistsError`. -/
def FS.mkdirParents (fs : FS) (p : String) : Except ExitKind FS :=
  if fs.isFile p then .error .fileExistsError
  else .ok { fs with dirs := ((ancestors p).foldl FS.addDir fs).dirs }

/-- The glob patterns of the cleanup loop (line 95). -/
def cleanupPatterns : List String := ["build", "dist", "*.egg-info"]

/-- One iteration of the cleanup loop body (lines 96-102): a directory is
removed with `shutil.rmtree`, a file with `unlink`; a path that exists as
neither is skipped. -/
def removeOne (fs : FS) (p : String) : FS × List String :=
  if fs.isDir p then (fs.rmtree p, ["  Removed " ++ p])
  else if fs.isFile p then (fs.unlink p, ["  Removed " ++ p])
  else (fs, [])

/-- Remove every path in a list in order, collecting the report lines. -/
def removeMatches (fs : FS) : List String → FS × List String
  | [] => (fs, [])
  | p :: rest =>
    let r1 := removeOne fs p
    let r2 := removeMatches r1.1 rest
    (r2.1, r1.2 ++ r2.2)

/-- Process one glob pattern: remove every matching entry of the current
working directory. -/
def cleanupPattern (fs : FS) (pat : String) : FS × List String :=
  removeMatches fs ((fs.cwdEntries).filter (fun p => globMatch pat p))

/-- Process a list of glob patterns in order. -/
def cleanupSteps (fs : FS) : List String → FS × List String
  | [] => (fs, [])
  | pat :: pats =>
    let r1 := cleanupPattern fs pat
    let r2 := cleanupSteps r1.1 pats
    (r2.1, r1.2 ++ r2.2)

/-- The whole cleanup step of `build_wheel` (lines 93-102). -/
def cleanupStep (fs : FS) : FS × List String :=
  cleanupSteps fs cleanupPatterns

/-- The environment key set before the build (line 109). -/
def buildFlagKey : String := "FLASH_ATTENTION_FORCE_BUILD"

/-- The wheel files the script discovers: `Path('dist').glob('*.whl')`
(lines 117-118) — entries directly under `dist` matching `*.whl`. -/
def FS.distWheels (fs : FS) : List String :=
  (fs.dirs ++ fs.files.map Prod.fst).filter (fun p =>
    match splitPath p with
    | [d, name] => d == "dist" && globMatch "*.whl" name
    | _ => false)

/-- Model of `shutil.copy2(src, destDir / destName)` (line 127): raises
`SameFileError` when source and destination are the same path,
`FileNotFoundError` when the source file or the destination directory is
missing, `IsADirectoryError` when source or destination is a directory;
otherwise writes the destination with the source bytes. (Path aliasing —
two spellings of one location — is not modelled; metadata preservation has
no observable content here.) -/
def FS.copy2Into (fs : FS) (src destDir destName : String) :
    Except ExitKind FS :=
  let dest := destDir ++ "/" ++ destName
  if src = dest then .error .sameFileError
  else
    match fs.files.lookup src with
    | none => .error (if fs.isDir src then .isADirectoryError else .fileNotFoundError)
    | some b =>
      if fs.isDir destDir then
        if fs.isDir dest then .error .isADirectoryError
        else .ok (fs.setFile dest b)
      else .error .fileNotFoundError

/-- Render a byte count as mebibytes with two decimals, as the f-string
`{size / (1024*1024):.2f}` (rounding half-up on exact rationals; the
IEEE-double half-even rounding of Python differs only on exact ties). -/
def formatMB (n : Nat) : String :=
  let hundredths := (n * 100 + 524288) / 1048576
  toString (hundredths / 100) ++ "." ++
    (if hundredths % 100 < 10 then "0" ++ toString (hundredths % 100)
     else toString (hundredths % 100))

/-- Intermediate result of the copy loop (lines 125-129). -/
structure CopyRes where
  exc : Option ExitKind
  fs : FS
  out : List String
  copies : List (String × String)

/-- The copy loop of `build_wheel` (lines 125-129): copy each discovered
wheel into the output directory and report destination and size. An
exception from `copy2` aborts the loop (and, being no `CalledProcessError`,
is not caught by the surrounding `try`). -/
def copyLoop (outputDir : String) : FS → List String → CopyRes
  | fs, [] => ⟨none, fs, [], []⟩
  | fs, w :: ws =>
    let name := baseName w
    let dest := outputDir ++ "/" ++ name
    match fs.copy2Into w outputDir name with
    | .error e => ⟨some e, fs, [], []⟩
    | .ok fs' =>
      let size := ((fs'.files.lookup dest).getD []).length
      let rest := copyLoop outputDir fs' ws
      ⟨rest.exc, rest.fs,
        ("✓ Built and saved: " ++ dest) ::
          ("  Size: " ++ formatMB size ++ " MB") :: rest.out,
        (w, dest) :: rest.copies⟩

/-- Result of `build_wheel`: the returned wheel name (or the way the
process died), the final file system, and the output, copy and subprocess
traces. -/
structure StepResult where
  result : Except ExitKind String
  fs : FS
  out : List String
  copies : List (String × String)
  calls : List Call

/-- `build_wheel` after the `mkdir` of line 90 succeeded, i.e. lines
91-135: cleanup, build invocation with the augmented environment, wheel
discovery, copy loop. Only `CalledProcessError` from the build call is
caught (lines 106, 133-135). -/
def build_wheelBody (outputDir cwd : String) (osEnv : Env)
    (build : Env → FS → Nat × FS) (fs1 : FS) : StepResult :=
  let cres := cleanupStep fs1
  let outPre := ["Output directory: " ++ absoluteOf cwd outputDir,
    "Cleaning previous builds..."] ++ cres.2 ++ ["\nBuilding wheel..."]
  let env := setEnv osEnv buildFlagKey "TRUE"
  let bres := build env cres.1
  if bres.1 ≠ 0 then
    { result := .error (.sysExit 1), fs := bres.2,
      out := outPre ++ ["✗ Build failed with exit code " ++ toString bres.1],
      copies := [], calls := [.setupBdistWheel env] }
  else
    let wheels := bres.2.distWheels
    if wheels = [] then
      { result := .error (.sysExit 1), fs := bres.2,
        out := outPre ++ ["✗ No wheel file found in dist/"],
        copies := [], calls := [.setupBdistWheel env] }
    else
      let cr := copyLoop outputDir bres.2 wheels
      match cr.exc with
      | some e =>
        { result := .error e, fs := cr.fs, out := outPre ++ cr.out,
          copies := cr.copies, calls := [.setupBdistWheel env] }
      | none =>
        { result := .ok (baseName (wheels.headD "")), fs := cr.fs,
          out := outPre ++ cr.out, copies := cr.copies,
          calls := [.setupBdistWheel env] }

/-- `build_wheel` (lines 82-135), starting with the header prints and the
`mkdir(parents=True, exist_ok=True)` of the output directory. -/
def build_wheel (outputDir cwd : String) (osEnv : Env)
    (build : Env → FS → Nat × FS) (fs : FS) : StepResult :=
  let outHdr := [sep60, "Building Wheel", sep60]
  match fs.mkdirParents outputDir with
  | .error e => { result := .error e, fs := fs, out := outHdr, copies := [], calls := [] }
  | .ok fs1 =>
    let body := build_wheelBody outputDir cwd osEnv build fs1
    { body with out := outHdr ++ body.out }

/-- Result of a whole run of the script. -/
structure RunResult where
  result : Except ExitKind Unit
  fs : FS
  out : List String
  copies : List (String × String)
  calls : List Call

/-- `main` (lines 138-167) as a whole-run function: argument check, banner,
environment check, dependency installation, wheel build, final report. -/
def main_run (argv : List String) (probe : Probe) (pip : String → Nat)
    (osEnv : Env) (cwd : String) (build : Env → FS → Nat × FS)
    (fs : FS) : RunResult :=
  if argv.length < 2 then
    { result := .error (.sysExit 1), fs := fs,
      out := [moduleDoc, "\nError: Output directory not specified",
        "Usage: python build_colab.py <output_directory>"],
      copies := [], calls := [] }
  else
    let outputDir := argv.getD 1 ""
    let banner := ["\n" ++ sep60, "Block Sparse Attention - Colab Build Script",
      sep60 ++ "\n"]
    let rc := check_colab_environment probe osEnv
    match rc.1 with
    | .error e =>
      { result := .error e, fs := fs, out := banner ++ rc.2,
        copies := [], calls := [] }
    | .ok _ =>
      let ri := install_build_dependencies pip
      match ri.1 with
      | .error e =>
        { result := .error e, fs := fs, out := banner ++ rc.2 ++ ri.2.1,
          copies := [], calls := ri.2.2 }
      | .ok _ =>
        let bw := build_wheel outputDir cwd osEnv build fs
        match bw.result with
        | .error e =>
          { result := .error e, fs := bw.fs,
            out := banner ++ rc.2 ++ ri.2.1 ++ bw.out,
            copies := bw.copies, calls := ri.2.2 ++ bw.calls }
        | .ok wheelName =>
          let absOut := absoluteOf cwd outputDir
          { result := .ok (), fs := bw.fs,
            out := banner ++ rc.2 ++ ri.2.1 ++ bw.out ++
              ["\n" ++ sep60, "Build Complete!", sep60,
               "\nWheel saved to: " ++ absOut ++ "/" ++ wheelName,
               "\nTo install the wheel:",
               "  !pip install " ++ absOut ++ "/" ++ wheelName, ""],
            copies := bw.copies, calls := ri.2.2 ++ bw.calls }

/-! ### Concrete oracles for witness runs -/

/-- A build oracle that exits 0 and deposits exactly one wheel
`dist/a.whl` with bytes `[1, 2, 3]`. -/
def buildDepositsOneWheel : Env → FS → Nat × FS := fun _ f =>
  (0, ⟨f.dirs ++ ["dist"], f.files ++ [("dist/a.whl", [1, 2, 3])]⟩)

/-- A build oracle that exits 0 without touching the file system. -/
def buildDepositsNothing : Env → FS → Nat × FS := fun _ f => (0, f)

/-- A build oracle that fails with exit code 7 without touching the file
system. -/
def buildFails7 : Env → FS → Nat × FS := fun _ f => (7, f)

/-- A pip oracle where upgrading the package named wheel fails with exit
code 2 and every other call succeeds. -/
def pipFailsOnWheel : String → Nat := fun d => if d = "wheel" then 2 else 0

/-- A pip oracle where every call succeeds. -/
def pipAllOk : String → Nat := fun _ => 0

/-- A probe of a Colab host where torch imports and CUDA is available. -/
def probeWithTorch : Probe :=
  { inColab := true, pyMajor := 3, pyMinor := 10, pyMicro := 12,
    torchVersion := some "2.1.0", cudaAvailable := true,
    cudaVersion := "12.1", cudaDeviceName := "NVIDIA A100-SXM4-40GB" }

/-! ### Lemmas: paths -/

theorem consSeg_ne_nil (c : Char) (ss : List (List Char)) : consSeg c ss ≠ [] := by
  unfold consSeg
  split
  · simp
  · cases ss with
    | nil => simp
    | cons s rest => simp

theorem splitSegs_ne_nil (cs : List Char) : splitSegs cs ≠ [] := by
  cases cs with
  | nil => simp [splitSegs]
  | cons c cs => exact consSeg_ne_nil c (splitSegs cs)

theorem joinData_consSeg (c : Char) (ss : List (List Char)) (hne : ss ≠ []) :
    joinData (consSeg c ss) = c :: joinData ss := by
  unfold consSeg
  by_cases hc : c = '/'
  · subst hc
    rw [if_pos rfl]
    cases ss with
    | nil => exact absurd rfl hne
    | cons s rest =>
      show [] ++ '/' :: joinData (s :: rest) = '/' :: joinData (s :: rest)
      rw [List.nil_append]
  · rw [if_neg hc]
    cases ss with
    | nil => exact absurd rfl hne
    | cons s rest =>
      cases rest with
      | nil => rfl
      | cons t ts =>
        show (c :: s) ++ '/' :: joinData (t :: ts) = c :: (s ++ '/' :: joinData (t :: ts))
        rw [List.cons_append]

theorem joinData_splitSegs (cs : List Char) : joinData (splitSegs cs) = cs := by
  induction cs with
  | nil => rfl
  | cons c cs ih =>
    show joinData (consSeg c (splitSegs cs)) = c :: cs
    rw [joinData_consSeg c _ (splitSegs_ne_nil cs), ih]

theorem string_mk_append (a b : List Char) :
    String.mk a ++ String.mk b = String.mk (a ++ b) := rfl

theorem joinPath_map_mk (L : List (List Char)) :
    joinPath (L.map String.mk) = String.mk (joinData L) := by
  match L with
  | [] => rfl
  | [s] => rfl
  | s :: t :: ts =>
    show String.mk s ++ "/" ++ joinPath ((t :: ts).map String.mk) = _
    rw [joinPath_map_mk (t :: ts)]
    show String.mk s ++ String.mk ['/'] ++ String.mk (joinData (t :: ts)) = _
    rw [string_mk_append, string_mk_append]
    show String.mk ((s ++ ['/']) ++ joinData (t :: ts)) = String.mk (s ++ '/' :: joinData (t :: ts))
    rw [List.append_assoc]
    rfl

theorem joinPath_splitPath (p : String) : joinPath (splitPath p) = p := by
  unfold splitPath
  rw [joinPath_map_mk, joinData_splitSegs]

theorem splitPath_ne_nil (p : String) : splitPath p ≠ [] := by
  unfold splitPath
  simp [splitSegs_ne_nil]

theorem self_mem_ancestors (p : String) : p ∈ ancestors p := by
  unfold ancestors
  have hlen : 0 < (splitPath p).length :=
    List.length_pos.mpr (splitPath_ne_nil p)
  refine List.mem_map.mpr ⟨(splitPath p).length - 1, List.mem_range.mpr ?_, ?_⟩
  · omega
  · have h1 : (splitPath p).length - 1 + 1 = (splitPath p).length := by omega
    rw [h1, List.take_length, joinPath_splitPath]

/-! ### Lemmas: directory creation -/

theorem mem_addDir_mono (fs : FS) (a d : String) (h : d ∈ fs.dirs) :
    d ∈ (fs.addDir a).dirs := by
  by_cases ha : a ∈ fs.dirs <;> simp [FS.addDir, ha, h]

theorem mem_addDir_self (fs : FS) (a : String) : a ∈ (fs.addDir a).dirs := by
  by_cases ha : a ∈ fs.dirs <;> simp [FS.addDir, ha]

theorem mem_foldl_addDir_mono (ds : List String) (fs : FS) (d : String)
    (h : d ∈ fs.dirs) : d ∈ (ds.foldl FS.addDir fs).dirs := by
  induction ds generalizing fs with
  | nil => exact h
  | cons a as ih =>
    rw [List.foldl_cons]
    exact ih _ (mem_addDir_mono fs a d h)

theorem mem_foldl_addDir_self (ds : List String) (fs : FS) (d : String)
    (h : d ∈ ds) : d ∈ (ds.foldl FS.addDir fs).dirs := by
  induction ds generalizing fs with
  | nil => cases h
  | cons a as ih =>
    rw [List.foldl_cons]
    rcases List.mem_cons.mp h with rfl | h
    · exact mem_foldl_addDir_mono as _ d (mem_addDir_self fs d)
    · exact ih _ h

theorem mkdirParents_ok_mem {fs fs1 : FS} {p : String}
    (h : fs.mkdirParents p = .ok fs1) : p ∈ fs1.dirs := by
  unfold FS.mkdirParents at h
  split at h
  · cases h
  · cases h
    exact mem_foldl_addDir_self _ _ _ (self_mem_ancestors p)

theorem mkdirParents_ok_files {fs fs1 : FS} {p : String}
    (h : fs.mkdirParents p = .ok fs1) : fs1.files = fs.files := by
  unfold FS.mkdirParents at h
  split at h
  · cases h
  · cases h; rfl

theorem mkdirParents_ok_dirs_mono {fs fs1 : FS} {p d : String}
    (h : fs.mkdirParents p = .ok fs1) (hd : d ∈ fs.dirs) : d ∈ fs1.dirs := by
  unfold FS.mkdirParents at h
  split at h
  · cases h
  · cases h
    exact mem_foldl_addDir_mono _ _ _ hd

/-! ### Lemmas: association-list lookup -/

theorem lookup_filter_none {β : Type} (l : List (String × β)) (q : String × β → Bool)
    (p : String) (h : ∀ x, q x = true → x.1 ≠ p) :
    (l.filter q).lookup p = none := by
  induction l with
  | nil => rfl
  | cons a t ih =>
    by_cases hq : q a = true
    · rw [List.filter_cons_of_pos hq]
      obtain ⟨k, v⟩ := a
      have hne : (p == k) = false := by
        have := h (k, v) hq
        simp only [ne_eq] at this
        simp [beq_eq_false_iff_ne]
        exact fun e => this e.symm
      simp [List.lookup, hne, ih]
    · rw [List.filter_cons_of_neg (by simpa using hq)]
      exact ih

theorem lookup_append_of_none {β : Type} (l₁ l₂ : List (String × β)) (p : String)
    (h : l₁.lookup p = none) : (l₁ ++ l₂).lookup p = l₂.lookup p := by
  induction l₁ with
  | nil => rfl
  | cons a t ih =>
    obtain ⟨k, v⟩ := a
    by_cases hk : (p == k) = true
    · simp [List.lookup, hk] at h
    · have hk' : (p == k) = false := by simpa using hk
      simp only [List.lookup, hk'] at h
      simp [List.lookup, hk']
      exact ih h

theorem lookup_setFile_self (fs : FS) (p : String) (b : Bytes) :
    ((fs.setFile p b).files).lookup p = some b := by
  unfold FS.setFile
  rw [lookup_append_of_none]
  · simp [List.lookup]
  · exact lookup_filter_none _ _ _ (fun x hx => by simpa using of_decide_eq_true hx)

theorem lookup_isSome_iff {β : Type} (l : List (String × β)) (p : String) :
    (l.lookup p).isSome = true ↔ p ∈ l.map Prod.fst := by
  induction l with
  | nil => simp [List.lookup]
  | cons a t ih =>
    obtain ⟨k, v⟩ := a
    by_cases hk : p = k
    · subst hk
      simp [List.lookup]
    · have hk' : (p == k) = false := by simpa using hk
      simp [List.lookup, hk', ih, hk]

/-! ### Lemmas: the cleanup step -/

theorem removeOne_dirs_mem {fs : FS} {p d : String}
    (h : d ∈ (removeOne fs p).1.dirs) : d ∈ fs.dirs := by
  unfold removeOne at h
  split at h
  · exact (List.mem_filter.mp h).1
  · split at h
    · exact h
    · exact h

theorem removeOne_filekeys_mem {fs : FS} {p d : String}
    (h : d ∈ (removeOne fs p).1.files.map Prod.fst) :
    d ∈ fs.files.map Prod.fst := by
  unfold removeOne at h
  split at h
  · obtain ⟨x, hx, rfl⟩ := List.mem_map.mp h
    exact List.mem_map.mpr ⟨x, (List.mem_filter.mp hx).1, rfl⟩
  · split at h
    · obtain ⟨x, hx, rfl⟩ := List.mem_map.mp h
      exact List.mem_map.mpr ⟨x, (List.mem_filter.mp hx).1, rfl⟩
    · exact h

theorem removeOne_kills (fs : FS) (p : String) :
    p ∉ (removeOne fs p).1.dirs ∧ p ∉ (removeOne fs p).1.files.map Prod.fst := by
  unfold removeOne
  split
  next hdir =>
    constructor
    · intro hmem
      have := (List.mem_filter.mp hmem).2
      have := of_decide_eq_true this
      exact this.1 rfl
    · intro hmem
      obtain ⟨x, hx, rfl⟩ := List.mem_map.mp hmem
      have := of_decide_eq_true (List.mem_filter.mp hx).2
      exact this.1 rfl
  next hdir =>
    split
    next hfile =>
      constructor
      · exact hdir
      · intro hmem
        obtain ⟨x, hx, rfl⟩ := List.mem_map.mp hmem
        have := of_decide_eq_true (List.mem_filter.mp hx).2
        exact this rfl
    next hfile =>
      constructor
      · exact hdir
      · intro hmem
        exact hfile ((lookup_isSome_iff fs.files p).mpr hmem)

theorem removeOne_preserves_dir {fs : FS} {p d : String} (h : d ∈ fs.dirs)
    (hne : d ≠ p) (hpre : strStartsWith d (p ++ "/") = false) :
    d ∈ (removeOne fs p).1.dirs := by
  unfold removeOne
  split
  · exact List.mem_filter.mpr ⟨h, decide_eq_true ⟨hne, hpre⟩⟩
  · split
    · exact h
    · exact h

theorem removeMatches_dirs_mem {L : List String} {fs : FS} {d : String}
    (h : d ∈ (removeMatches fs L).1.dirs) : d ∈ fs.dirs := by
  induction L generalizing fs with
  | nil => exact h
  | cons a t ih => exact removeOne_dirs_mem (ih h)

theorem removeMatches_filekeys_mem {L : List String} {fs : FS} {d : String}
    (h : d ∈ (removeMatches fs L).1.files.map Prod.fst) :
    d ∈ fs.files.map Prod.fst := by
  induction L generalizing fs with
  | nil => exact h
  | cons a t ih => exact removeOne_filekeys_mem (ih h)

theorem removeMatches_kills {L : List String} {fs : FS} {p : String} (h : p ∈ L) :
    p ∉ (removeMatches fs L).1.dirs ∧
      p ∉ (removeMatches fs L).1.files.map Prod.fst := by
  induction L generalizing fs with
  | nil => cases h
  | cons a t ih =>
    rcases List.mem_cons.mp h with rfl | h
    · constructor
      · intro hd
        exact (removeOne_kills fs p).1 (removeMatches_dirs_mem hd)
      · intro hf
        exact (removeOne_kills fs p).2 (removeMatches_filekeys_mem hf)
    · exact ih h

theorem removeMatches_preserves_dir {L : List String} {fs : FS} {d : String}
    (h : d ∈ fs.dirs)
    (hprot : ∀ p ∈ L, d ≠ p ∧ strStartsWith d (p ++ "/") = false) :
    d ∈ (removeMatches fs L).1.dirs := by
  induction L generalizing fs with
  | nil => exact h
  | cons a t ih =>
    have ha := hprot a (List.mem_cons_self a t)
    exact ih (removeOne_preserves_dir h ha.1 ha.2) (fun p hp => hprot p (List.mem_cons_of_mem a hp))

theorem mem_cwdEntries_iff (fs : FS) (p : String) :
    p ∈ fs.cwdEntries ↔
      (p ∈ fs.dirs ∨ p ∈ fs.files.map Prod.fst) ∧ isCwdEntry p = true := by
  unfold FS.cwdEntries
  constructor
  · intro h
    rcases List.mem_append.mp h with h | h
    · exact ⟨Or.inl (List.mem_filter.mp h).1, (List.mem_filter.mp h).2⟩
    · exact ⟨Or.inr (List.mem_filter.mp h).1, (List.mem_filter.mp h).2⟩
  · rintro ⟨h | h, hc⟩
    · exact List.mem_append.mpr (Or.inl (List.mem_filter.mpr ⟨h, hc⟩))
    · exact List.mem_append.mpr (Or.inr (List.mem_filter.mpr ⟨h, hc⟩))

theorem cleanupPattern_dirs_mem {fs : FS} {pat d : String}
    (h : d ∈ (cleanupPattern fs pat).1.dirs) : d ∈ fs.dirs :=
  removeMatches_dirs_mem h

theorem cleanupPattern_filekeys_mem {fs : FS} {pat d : String}
    (h : d ∈ (cleanupPattern fs pat).1.files.map Prod.fst) :
    d ∈ fs.files.map Prod.fst :=
  removeMatches_filekeys_mem h

theorem cleanupPattern_kills (fs : FS) (pat p : String)
    (hcwd : isCwdEntry p = true) (hm : globMatch pat p = true) :
    p ∉ (cleanupPattern fs pat).1.dirs ∧
      p ∉ (cleanupPattern fs pat).1.files.map Prod.fst := by
  by_cases hp : p ∈ fs.cwdEntries
  · exact removeMatches_kills (List.mem_filter.mpr ⟨hp, hm⟩)
  · have hd : p ∉ fs.dirs := fun h => hp (mem_cwdEntries_iff fs p |>.mpr ⟨Or.inl h, hcwd⟩)
    have hf : p ∉ fs.files.map Prod.fst :=
      fun h => hp (mem_cwdEntries_iff fs p |>.mpr ⟨Or.inr h, hcwd⟩)
    exact ⟨fun h => hd (cleanupPattern_dirs_mem h),
      fun h => hf (cleanupPattern_filekeys_mem h)⟩

theorem cleanupSteps_dirs_mem {pats : List String} {fs : FS} {d : String}
    (h : d ∈ (cleanupSteps fs pats).1.dirs) : d ∈ fs.dirs := by
  induction pats generalizing fs with
  | nil => exact h
  | cons a t ih => exact cleanupPattern_dirs_mem (ih h)

theorem cleanupSteps_filekeys_mem {pats : List String} {fs : FS} {d : String}
    (h : d ∈ (cleanupSteps fs pats).1.files.map Prod.fst) :
    d ∈ fs.files.map Prod.fst := by
  induction pats generalizing fs with
  | nil => exact h
  | cons a t ih => exact cleanupPattern_filekeys_mem (ih h)

theorem cleanupSteps_kills {pats : List String} {fs : FS} {pat p : String}
    (hpat : pat ∈ pats) (hcwd : isCwdEntry p = true)
    (hm : globMatch pat p = true) :
    p ∉ (cleanupSteps fs pats).1.dirs ∧
      p ∉ (cleanupSteps fs pats).1.files.map Prod.fst := by
  induction pats generalizing fs with
  | nil => cases hpat
  | cons a t ih =>
    rcases List.mem_cons.mp hpat with rfl | hpat
    · have hk := cleanupPattern_kills fs pat p hcwd hm
      exact ⟨fun h => hk.1 (cleanupSteps_dirs_mem h),
        fun h => hk.2 (cleanupSteps_filekeys_mem h)⟩
    · exact ih hpat

/-- After the cleanup step, no working-directory entry matching any of the
three cleanup patterns exists, whatever the file system looked like. -/
theorem cleanup_purges (fs : FS) (pat p : String) (hpat : pat ∈ cleanupPatterns)
    (hcwd : isCwdEntry p = true) (hm : globMatch pat p = true) :
    ¬ (cleanupStep fs).1.isDir p ∧ ¬ (cleanupStep fs).1.isFile p := by
  have h := @cleanupSteps_kills cleanupPatterns fs pat p hpat hcwd hm
  refine ⟨h.1, fun hf => h.2 ?_⟩
  exact (lookup_isSome_iff _ p).mp hf

theorem mem_cwdEntries_of_removeOne {fs : FS} {q p : String}
    (h : p ∈ (removeOne fs q).1.cwdEntries) : p ∈ fs.cwdEntries := by
  rcases (mem_cwdEntries_iff _ p).mp h with ⟨hd | hf, hc⟩
  · exact (mem_cwdEntries_iff fs p).mpr ⟨Or.inl (removeOne_dirs_mem hd), hc⟩
  · exact (mem_cwdEntries_iff fs p).mpr ⟨Or.inr (removeOne_filekeys_mem hf), hc⟩

theorem mem_cwdEntries_of_removeMatches {L : List String} {fs : FS} {p : String}
    (h : p ∈ (removeMatches fs L).1.cwdEntries) : p ∈ fs.cwdEntries := by
  rcases (mem_cwdEntries_iff _ p).mp h with ⟨hd | hf, hc⟩
  · exact (mem_cwdEntries_iff fs p).mpr ⟨Or.inl (removeMatches_dirs_mem hd), hc⟩
  · exact (mem_cwdEntries_iff fs p).mpr ⟨Or.inr (removeMatches_filekeys_mem hf), hc⟩

/-- The cleanup step preserves a directory `d` when no working-directory
entry matching one of the cleanup patterns equals `d` or is an ancestor of
`d`. -/
theorem cleanupSteps_preserves_dir {pats : List String} {fs0 fs : FS} {d : String}
    (hpats : ∀ q ∈ pats, q ∈ cleanupPatterns)
    (hsub : ∀ p ∈ fs.cwdEntries, p ∈ fs0.cwdEntries)
    (h : d ∈ fs.dirs)
    (hprot : ∀ p ∈ fs0.cwdEntries,
      (cleanupPatterns.any (fun pat => globMatch pat p)) = true →
      d ≠ p ∧ strStartsWith d (p ++ "/") = false) :
    d ∈ (cleanupSteps fs pats).1.dirs := by
  induction pats generalizing fs with
  | nil => exact h
  | cons a t ih =>
    have ha : a ∈ cleanupPatterns := hpats a (List.mem_cons_self a t)
    refine ih (fun q hq => hpats q (List.mem_cons_of_mem a hq)) ?_ ?_ 
    · intro p hp
      exact hsub p (mem_cwdEntries_of_removeMatches hp)
    · unfold cleanupPattern
      refine removeMatches_preserves_dir h ?_
      intro p hp
      have hp' := List.mem_filter.mp hp
      refine hprot p (hsub p hp'.1) ?_
      exact List.any_eq_true.mpr ⟨a, ha, hp'.2⟩

/-- Specialisation of `cleanupSteps_preserves_dir` to the actual cleanup
step. -/
theorem cleanupStep_preserves_dir {fs : FS} {d : String} (h : d ∈ fs.dirs)
    (hprot : ∀ p ∈ fs.cwdEntries,
      (cleanupPatterns.any (fun pat => globMatch pat p)) = true →
      d ≠ p ∧ strStartsWith d (p ++ "/") = false) :
    d ∈ (cleanupStep fs).1.dirs :=
  cleanupSteps_preserves_dir (fun _ hq => hq) (fun _ hp => hp) h hprot

/-! ### Lemmas: environment table -/

theorem setEnv_lookup_self (e : Env) (k v : String) :
    (setEnv e k v).lookup k = some v := by
  unfold setEnv
  simp [List.lookup]

theorem lookup_filter_keyne {β : Type} (e : List (String × β)) (k k' : String)
    (h : k' ≠ k) :
    (e.filter (fun kv => kv.1 ≠ k)).lookup k' = e.lookup k' := by
  induction e with
  | nil => rfl
  | cons a t ih =>
    obtain ⟨ka, va⟩ := a
    by_cases hka : ka = k
    · subst hka
      rw [List.filter_cons_of_neg (by simp)]
      have hk : (k' == ka) = false := by simpa using h
      rw [ih]
      show List.lookup k' t = List.lookup k' ((ka, va) :: t)
      simp only [List.lookup, hk]
    · rw [List.filter_cons_of_pos (by simpa using hka)]
      by_cases hk' : k' = ka
      · subst hk'
        have hk : (k' == k') = true := by simp
        simp only [List.lookup, hk]
      · have hk : (k' == ka) = false := by simpa using hk'
        simp only [List.lookup, hk]
        exact ih

theorem setEnv_lookup_ne (e : Env) (k v k' : String) (h : k' ≠ k) :
    (setEnv e k v).lookup k' = e.lookup k' := by
  unfold setEnv
  have hk : (k' == k) = false := by simpa using h
  simp only [List.lookup, hk]
  exact lookup_filter_keyne e k k' h

/-! ### Lemmas: phase results -/

theorem check_result (probe : Probe) (osEnv : Env) :
    (check_colab_environment probe osEnv).1 =
      (match probe.torchVersion with
       | none => .error (.sysExit 1)
       | some _ => .ok ()) := by
  rcases h : probe.torchVersion with _ | v <;>
    simp [check_colab_environment, h]

theorem installLoop_all_ok (pip : String → Nat) (ds : List String)
    (h : ∀ d ∈ ds, pip d = 0) :
    installLoop pip ds =
      (.ok (), ds.map (fun d => "Installing " ++ d ++ "..."),
        ds.map Call.pipInstall) := by
  induction ds with
  | nil => rfl
  | cons a t ih =>
    have ha : pip a = 0 := h a (List.mem_cons_self a t)
    have ht := ih (fun d hd => h d (List.mem_cons_of_mem a hd))
    simp [installLoop, ha, ht]

theorem install_all_ok (pip : String → Nat) (h : ∀ d, pip d = 0) :
    install_build_dependencies pip =
      (.ok (),
        [sep60, "Installing Build Dependencies", sep60] ++
          dependencies.map (fun d => "Installing " ++ d ++ "...") ++
          ["✓ Build dependencies installed\n"],
        dependencies.map Call.pipInstall) := by
  unfold install_build_dependencies
  rw [installLoop_all_ok pip dependencies (fun d _ => h d)]

/-- Threading lemma: when the command-line argument is present, torch
imports and every pip call succeeds, the run's result, file system, copy
trace and call trace are those of `build_wheel`, and every `build_wheel`
output line appears in the run's output. -/
theorem main_run_build_phase (argv : List String) (probe : Probe)
    (pip : String → Nat) (osEnv : Env) (cwd : String)
    (build : Env → FS → Nat × FS) (fs : FS)
    (hargv : 2 ≤ argv.length) (htorch : probe.torchVersion.isSome = true)
    (hpip : ∀ d, pip d = 0) :
    (main_run argv probe pip osEnv cwd build fs).result =
        (build_wheel (argv.getD 1 "") cwd osEnv build fs).result.map (fun _ => ()) ∧
      (main_run argv probe pip osEnv cwd build fs).fs =
        (build_wheel (argv.getD 1 "") cwd osEnv build fs).fs ∧
      (main_run argv probe pip osEnv cwd build fs).copies =
        (build_wheel (argv.getD 1 "") cwd osEnv build fs).copies ∧
      (main_run argv probe pip osEnv cwd build fs).calls =
        dependencies.map Call.pipInstall ++
          (build_wheel (argv.getD 1 "") cwd osEnv build fs).calls ∧
      ∀ l ∈ (build_wheel (argv.getD 1 "") cwd osEnv build fs).out,
        l ∈ (main_run argv probe pip osEnv cwd build fs).out := by
  obtain ⟨v, hv⟩ := Option.isSome_iff_exists.mp htorch
  have hlt : ¬ argv.length < 2 := by omega
  have hcheck : (check_colab_environment probe osEnv).1 = .ok () := by
    rw [check_result, hv]
  have hinst := install_all_ok pip hpip
  rcases hbw : (build_wheel (argv.getD 1 "") cwd osEnv build fs).result with e | name
  · refine ⟨?_, ?_, ?_, ?_, ?_⟩
    · simp only [main_run, if_neg hlt, hcheck, hinst, hbw, Except.map]
    · simp only [main_run, if_neg hlt, hcheck, hinst, hbw]
    · simp only [main_run, if_neg hlt, hcheck, hinst, hbw]
    · simp only [main_run, if_neg hlt, hcheck, hinst, hbw]
    · intro l hl
      simp only [main_run, if_neg hlt, hcheck, hinst, hbw]
      simp only [List.mem_cons, List.mem_append]
      tauto
  · refine ⟨?_, ?_, ?_, ?_, ?_⟩
    · simp only [main_run, if_neg hlt, hcheck, hinst, hbw, Except.map]
    · simp only [main_run, if_neg hlt, hcheck, hinst, hbw]
    · simp only [main_run, if_neg hlt, hcheck, hinst, hbw]
    · simp only [main_run, if_neg hlt, hcheck, hinst, hbw]
    · intro l hl
      simp only [main_run, if_neg hlt, hcheck, hinst, hbw]
      simp only [List.mem_cons, List.mem_append]
      tauto

/-! ### Lemmas: the build phase, branch by branch -/

theorem build_wheelBody_fail (outputDir cwd : String) (osEnv : Env)
    (build : Env → FS → Nat × FS) (fs1 fs3 : FS) (c : Nat)
    (hbres : build (setEnv osEnv buildFlagKey "TRUE") (cleanupStep fs1).1 = (c, fs3))
    (hc : c ≠ 0) :
    (build_wheelBody outputDir cwd osEnv build fs1).result = .error (.sysExit 1) ∧
      (build_wheelBody outputDir cwd osEnv build fs1).fs = fs3 ∧
      (build_wheelBody outputDir cwd osEnv build fs1).copies = [] ∧
      ("✗ Build failed with exit code " ++ toString c) ∈
        (build_wheelBody outputDir cwd osEnv build fs1).out := by
  simp only [build_wheelBody, hbres]
  rw [if_pos hc]
  refine ⟨rfl, rfl, rfl, ?_⟩
  simp

theorem build_wheelBody_nowheel (outputDir cwd : String) (osEnv : Env)
    (build : Env → FS → Nat × FS) (fs1 fs3 : FS)
    (hbres : build (setEnv osEnv buildFlagKey "TRUE") (cleanupStep fs1).1 = (0, fs3))
    (hw : fs3.distWheels = []) :
    (build_wheelBody outputDir cwd osEnv build fs1).result = .error (.sysExit 1) ∧
      (build_wheelBody outputDir cwd osEnv build fs1).fs = fs3 ∧
      (build_wheelBody outputDir cwd osEnv build fs1).copies = [] ∧
      "✗ No wheel file found in dist/" ∈
        (build_wheelBody outputDir cwd osEnv build fs1).out := by
  simp only [build_wheelBody, hbres]
  rw [if_neg (by simp), if_pos hw]
  refine ⟨rfl, rfl, rfl, ?_⟩
  simp

theorem build_wheelBody_success (outputDir cwd : String) (osEnv : Env)
    (build : Env → FS → Nat × FS) (fs1 fs3 : FS) (w : String) (b : Bytes)
    (hbres : build (setEnv osEnv buildFlagKey "TRUE") (cleanupStep fs1).1 = (0, fs3))
    (hw : fs3.distWheels = [w])
    (hfile : fs3.files.lookup w = some b)
    (hneq : w ≠ outputDir ++ "/" ++ baseName w)
    (hdirOut : outputDir ∈ fs3.dirs)
    (hdirDest : outputDir ++ "/" ++ baseName w ∉ fs3.dirs) :
    (build_wheelBody outputDir cwd osEnv build fs1).result = .ok (baseName w) ∧
      (build_wheelBody outputDir cwd osEnv build fs1).fs =
        fs3.setFile (outputDir ++ "/" ++ baseName w) b ∧
      (build_wheelBody outputDir cwd osEnv build fs1).copies =
        [(w, outputDir ++ "/" ++ baseName w)] := by
  have hcopy : fs3.copy2Into w outputDir (baseName w) =
      .ok (fs3.setFile (outputDir ++ "/" ++ baseName w) b) := by
    simp only [FS.copy2Into, if_neg hneq, hfile]
    rw [if_pos hdirOut, if_neg hdirDest]
  have hloop : copyLoop outputDir fs3 [w] =
      ⟨none, fs3.setFile (outputDir ++ "/" ++ baseName w) b,
        ["✓ Built and saved: " ++ (outputDir ++ "/" ++ baseName w),
         "  Size: " ++ formatMB b.length ++ " MB"],
        [(w, outputDir ++ "/" ++ baseName w)]⟩ := by
    simp only [copyLoop, hcopy, lookup_setFile_self, Option.getD]
  simp only [build_wheelBody, hbres]
  rw [if_neg (by simp), hw, if_neg (by simp), hloop]
  exact ⟨rfl, rfl, rfl⟩

theorem build_wheel_unfold (outputDir cwd : String) (osEnv : Env)
    (build : Env → FS → Nat × FS) (fs fs1 : FS)
    (hmk : fs.mkdirParents outputDir = .ok fs1) :
    (build_wheel outputDir cwd osEnv build fs).result =
        (build_wheelBody outputDir cwd osEnv build fs1).result ∧
      (build_wheel outputDir cwd osEnv build fs).fs =
        (build_wheelBody outputDir cwd osEnv build fs1).fs ∧
      (build_wheel outputDir cwd osEnv build fs).copies =
        (build_wheelBody outputDir cwd osEnv build fs1).copies ∧
      (build_wheel outputDir cwd osEnv build fs).calls =
        (build_wheelBody outputDir cwd osEnv build fs1).calls ∧
      ∀ l ∈ (build_wheelBody outputDir cwd osEnv build fs1).out,
        l ∈ (build_wheel outputDir cwd osEnv build fs).out := by
  refine ⟨?_, ?_, ?_, ?_, ?_⟩
  · simp only [build_wheel, hmk]
  · simp only [build_wheel, hmk]
  · simp only [build_wheel, hmk]
  · simp only [build_wheel, hmk]
  · intro l hl
    simp only [build_wheel, hmk]
    simp only [List.mem_cons, List.mem_append]
    tauto

theorem build_wheelBody_calls (outputDir cwd : String) (osEnv : Env)
    (build : Env → FS → Nat × FS) (fs1 : FS) :
    (build_wheelBody outputDir cwd osEnv build fs1).calls =
      [.setupBdistWheel (setEnv osEnv buildFlagKey "TRUE")] := by
  simp only [build_wheelBody]
  split
  · rfl
  · split
    · rfl
    · split <;> rfl

/-! ### The claims -/

/-- C6: invoking the script with zero command-line arguments always exits
with status 1 and prints the usage text (the module docstring) before any
other side effect occurs: the whole run is exactly the three usage prints,
with the file system untouched, no copies and no subprocess calls. -/
theorem no_args_prints_usage_exits_one
    (argv : List String) (probe : Probe) (pip : String → Nat) (osEnv : Env)
    (cwd : String) (build : Env → FS → Nat × FS) (fs : FS)
    (h : argv.length < 2) :
    main_run argv probe pip osEnv cwd build fs =
      { result := .error (.sysExit 1), fs := fs,
        out := [moduleDoc, "\nError: Output directory not specified",
          "Usage: python build_colab.py <output_directory>"],
        copies := [], calls := [] } ∧
    exitCode (main_run argv probe pip osEnv cwd build fs).result = 1 := by
  constructor
  · simp only [main_run, if_pos h]
  · simp only [main_run, if_pos h]
    rfl

/-- Witness for C6 at a concrete zero-argument invocation. -/
theorem no_args_prints_usage_exits_one_witness :
    main_run ["build_colab.py"] probeWithTorch pipAllOk [] "/content"
        buildDepositsOneWheel FS.empty =
      { result := .error (.sysExit 1), fs := FS.empty,
        out := [moduleDoc, "\nError: Output directory not specified",
          "Usage: python build_colab.py <output_directory>"],
        copies := [], calls := [] } ∧
    exitCode (main_run ["build_colab.py"] probeWithTorch pipAllOk [] "/content"
        buildDepositsOneWheel FS.empty).result = 1 :=
  no_args_prints_usage_exits_one ["build_colab.py"] probeWithTorch pipAllOk []
    "/content" buildDepositsOneWheel FS.empty (by decide)

/-- C7: the environment-check phase terminates the process, with non-zero
status (namely `sys.exit 1`), exactly when torch is not importable; every
other probed condition (non-Colab host, missing accelerator, unset
CUDA_HOME) leaves the result `ok`, so execution continues. -/
theorem env_check_exits_only_without_torch (probe : Probe) (osEnv : Env) :
    (check_colab_environment probe osEnv).1 =
      (match probe.torchVersion with
       | none => .error (.sysExit 1)
       | some _ => .ok ()) :=
  check_result probe osEnv

/-- C9: immediately after the cleanup step - and hence before the build
invocation, which receives exactly the cleaned file system - no
working-directory entry matching one of the glob patterns `build`, `dist`,
`*.egg-info` exists, whatever was present before; absence of matches is not
an error since `cleanupStep` is total. -/
theorem cleanup_removes_stale_entries
    (fs : FS) (pat p : String) (hpat : pat ∈ cleanupPatterns)
    (hcwd : isCwdEntry p = true) (hm : globMatch pat p = true) :
    ¬ (cleanupStep fs).1.isDir p ∧ ¬ (cleanupStep fs).1.isFile p :=
  cleanup_purges fs pat p hpat hcwd hm

/-- Witness for C9: a stale `build` directory, a stale `dist` file and a
stale egg-info file are all gone after the cleanup step. -/
theorem cleanup_removes_stale_entries_witness :
    (¬ (cleanupStep ⟨["build", "keep"], [("dist", [1]), ("x.egg-info", [2])]⟩).1.isDir
        "build" ∧
      ¬ (cleanupStep ⟨["build", "keep"], [("dist", [1]), ("x.egg-info", [2])]⟩).1.isFile
        "build") ∧
    ¬ (cleanupStep ⟨["build", "keep"], [("dist", [1]), ("x.egg-info", [2])]⟩).1.isFile
        "x.egg-info" :=
  ⟨cleanup_removes_stale_entries ⟨["build", "keep"], [("dist", [1]), ("x.egg-info", [2])]⟩
      "build" "build" (by decide) (by decide) (by decide),
    (cleanup_removes_stale_entries ⟨["build", "keep"], [("dist", [1]), ("x.egg-info", [2])]⟩
      "*.egg-info" "x.egg-info" (by decide) (by decide) (by decide)).2⟩

/-- C3: in every run where the build entry point exits with a non-zero
status, the script exits with status 1 (via the caught
`CalledProcessError`), reports the numeric exit code on its output, copies
nothing, and leaves the file system exactly as the build subprocess left
it. -/
theorem build_failure_exits_one_no_copy
    (argv : List String) (probe : Probe) (pip : String → Nat) (osEnv : Env)
    (cwd : String) (build : Env → FS → Nat × FS) (fs fs1 fs3 : FS) (c : Nat)
    (hargv : 2 ≤ argv.length)
    (htorch : probe.torchVersion.isSome = true)
    (hpip : ∀ d, pip d = 0)
    (hmk : fs.mkdirParents (argv.getD 1 "") = .ok fs1)
    (hbres : build (setEnv osEnv buildFlagKey "TRUE") (cleanupStep fs1).1 = (c, fs3))
    (hc : c ≠ 0) :
    (main_run argv probe pip osEnv cwd build fs).result = .error (.sysExit 1) ∧
      exitCode (main_run argv probe pip osEnv cwd build fs).result = 1 ∧
      ("✗ Build failed with exit code " ++ toString c) ∈
        (main_run argv probe pip osEnv cwd build fs).out ∧
      (main_run argv probe pip osEnv cwd build fs).copies = [] ∧
      (main_run argv probe pip osEnv cwd build fs).fs = fs3 := by
  obtain ⟨hres, hfs, hcop, _, hout⟩ :=
    main_run_build_phase argv probe pip osEnv cwd build fs hargv htorch hpip
  obtain ⟨hbr, hbf, hbc, _, houtb⟩ :=
    build_wheel_unfold (argv.getD 1 "") cwd osEnv build fs fs1 hmk
  obtain ⟨hr, hf, hcp, hmsg⟩ :=
    build_wheelBody_fail (argv.getD 1 "") cwd osEnv build fs1 fs3 c hbres hc
  have hres1 : (main_run argv probe pip osEnv cwd build fs).result =
      .error (.sysExit 1) := by
    rw [hres, hbr, hr]; rfl
  exact ⟨hres1, by rw [hres1]; rfl, hout _ (houtb _ hmsg),
    hcop.trans (hbc.trans hcp), hfs.trans (hbf.trans hf)⟩

/-- Witness for C3: a concrete run whose build subprocess exits 7. -/
theorem build_failure_exits_one_no_copy_witness :
    (main_run ["build_colab.py", "/drive/wheels"] probeWithTorch pipAllOk []
        "/content" buildFails7 FS.empty).result = .error (.sysExit 1) ∧
      exitCode (main_run ["build_colab.py", "/drive/wheels"] probeWithTorch
        pipAllOk [] "/content" buildFails7 FS.empty).result = 1 ∧
      ("✗ Build failed with exit code " ++ toString 7) ∈
        (main_run ["build_colab.py", "/drive/wheels"] probeWithTorch pipAllOk []
          "/content" buildFails7 FS.empty).out ∧
      (main_run ["build_colab.py", "/drive/wheels"] probeWithTorch pipAllOk []
        "/content" buildFails7 FS.empty).copies = [] ∧
      (main_run ["build_colab.py", "/drive/wheels"] probeWithTorch pipAllOk []
        "/content" buildFails7 FS.empty).fs =
          ⟨["", "/drive", "/drive/wheels"], []⟩ :=
  build_failure_exits_one_no_copy ["build_colab.py", "/drive/wheels"]
    probeWithTorch pipAllOk [] "/content" buildFails7 FS.empty
    ⟨["", "/drive", "/drive/wheels"], []⟩ ⟨["", "/drive", "/drive/wheels"], []⟩ 7
    (by decide) rfl (fun d => rfl) rfl rfl (by decide)

/-- C4: in every run where the build entry point exits 0 but no `*.whl`
file is found in `dist/`, the script reports the error, exits with status
1, copies nothing, and leaves the file system as the build subprocess left
it. -/
theorem nowheel_exits_one_no_copy
    (argv : List String) (probe : Probe) (pip : String → Nat) (osEnv : Env)
    (cwd : String) (build : Env → FS → Nat × FS) (fs fs1 fs3 : FS)
    (hargv : 2 ≤ argv.length)
    (htorch : probe.torchVersion.isSome = true)
    (hpip : ∀ d, pip d = 0)
    (hmk : fs.mkdirParents (argv.getD 1 "") = .ok fs1)
    (hbres : build (setEnv osEnv buildFlagKey "TRUE") (cleanupStep fs1).1 = (0, fs3))
    (hw : fs3.distWheels = []) :
    (main_run argv probe pip osEnv cwd build fs).result = .error (.sysExit 1) ∧
      exitCode (main_run argv probe pip osEnv cwd build fs).result = 1 ∧
      "✗ No wheel file found in dist/" ∈
        (main_run argv probe pip osEnv cwd build fs).out ∧
      (main_run argv probe pip osEnv cwd build fs).copies = [] ∧
      (main_run argv probe pip osEnv cwd build fs).fs = fs3 := by
  obtain ⟨hres, hfs, hcop, _, hout⟩ :=
    main_run_build_phase argv probe pip osEnv cwd build fs hargv htorch hpip
  obtain ⟨hbr, hbf, hbc, _, houtb⟩ :=
    build_wheel_unfold (argv.getD 1 "") cwd osEnv build fs fs1 hmk
  obtain ⟨hr, hf, hcp, hmsg⟩ :=
    build_wheelBody_nowheel (argv.getD 1 "") cwd osEnv build fs1 fs3 hbres hw
  have hres1 : (main_run argv probe pip osEnv cwd build fs).result =
      .error (.sysExit 1) := by
    rw [hres, hbr, hr]; rfl
  exact ⟨hres1, by rw [hres1]; rfl, hout _ (houtb _ hmsg),
    hcop.trans (hbc.trans hcp), hfs.trans (hbf.trans hf)⟩

/-- Witness for C4: a concrete run whose build subprocess exits 0 but
deposits nothing in `dist/`. -/
theorem nowheel_exits_one_no_copy_witness :
    (main_run ["build_colab.py", "/drive/wheels"] probeWithTorch pipAllOk []
        "/content" buildDepositsNothing FS.empty).result = .error (.sysExit 1) ∧
      exitCode (main_run ["build_colab.py", "/drive/wheels"] probeWithTorch
        pipAllOk [] "/content" buildDepositsNothing FS.empty).result = 1 ∧
      "✗ No wheel file found in dist/" ∈
        (main_run ["build_colab.py", "/drive/wheels"] probeWithTorch pipAllOk []
          "/content" buildDepositsNothing FS.empty).out ∧
      (main_run ["build_colab.py", "/drive/wheels"] probeWithTorch pipAllOk []
        "/content" buildDepositsNothing FS.empty).copies = [] ∧
      (main_run ["build_colab.py", "/drive/wheels"] probeWithTorch pipAllOk []
        "/content" buildDepositsNothing FS.empty).fs =
          ⟨["", "/drive", "/drive/wheels"], []⟩ :=
  nowheel_exits_one_no_copy ["build_colab.py", "/drive/wheels"]
    probeWithTorch pipAllOk [] "/content" buildDepositsNothing FS.empty
    ⟨["", "/drive", "/drive/wheels"], []⟩ ⟨["", "/drive", "/drive/wheels"], []⟩
    (by decide) rfl (fun d => rfl) rfl rfl (by decide)

/-- C10: failure after entry into the build phase is not atomic: on both
failure paths (non-zero build exit, or zero artifacts found) the script
exits via `sys.exit 1` with the file system exactly as the build subprocess
left it - downstream of the already-performed output-directory creation
(`outputDir ∈ fs1.dirs`) and stale-entry cleanup (no matching entry
survives into the state handed to the build) - and nothing is restored. -/
theorem failure_paths_not_atomic
    (outputDir cwd : String) (osEnv : Env) (build : Env → FS → Nat × FS)
    (fs fs1 fs3 : FS) (c : Nat)
    (hmk : fs.mkdirParents outputDir = .ok fs1)
    (hbres : build (setEnv osEnv buildFlagKey "TRUE") (cleanupStep fs1).1 = (c, fs3))
    (hfail : c ≠ 0 ∨ (c = 0 ∧ fs3.distWheels = [])) :
    (build_wheel outputDir cwd osEnv build fs).result = .error (.sysExit 1) ∧
      (build_wheel outputDir cwd osEnv build fs).fs = fs3 ∧
      (build_wheel outputDir cwd osEnv build fs).copies = [] ∧
      outputDir ∈ fs1.dirs ∧
      (∀ pat ∈ cleanupPatterns, ∀ p, isCwdEntry p = true → globMatch pat p = true →
        ¬ (cleanupStep fs1).1.isDir p ∧ ¬ (cleanupStep fs1).1.isFile p) := by
  obtain ⟨hbr, hbf, hbc, _, _⟩ :=
    build_wheel_unfold outputDir cwd osEnv build fs fs1 hmk
  have hbody : (build_wheelBody outputDir cwd osEnv build fs1).result =
        .error (.sysExit 1) ∧
      (build_wheelBody outputDir cwd osEnv build fs1).fs = fs3 ∧
      (build_wheelBody outputDir cwd osEnv build fs1).copies = [] := by
    rcases hfail with hc | ⟨hc0, hw⟩
    · obtain ⟨h1, h2, h3, _⟩ :=
        build_wheelBody_fail outputDir cwd osEnv build fs1 fs3 c hbres hc
      exact ⟨h1, h2, h3⟩
    · subst hc0
      obtain ⟨h1, h2, h3, _⟩ :=
        build_wheelBody_nowheel outputDir cwd osEnv build fs1 fs3 hbres hw
      exact ⟨h1, h2, h3⟩
  exact ⟨hbr.trans hbody.1, hbf.trans hbody.2.1, hbc.trans hbody.2.2,
    mkdirParents_ok_mem hmk,
    fun pat hpat p hcwd hm => cleanup_purges fs1 pat p hpat hcwd hm⟩

/-- Witness for C10: a failing build over a file system that held a stale
`build` directory and a stale egg-info file; at exit the output directory
was created and the stale entries are gone. -/
theorem failure_paths_not_atomic_witness :
    (build_wheel "/drive/wheels" "/content" [] buildFails7
        ⟨["build"], [("junk.egg-info", [5])]⟩).result = .error (.sysExit 1) ∧
      (build_wheel "/drive/wheels" "/content" [] buildFails7
        ⟨["build"], [("junk.egg-info", [5])]⟩).fs =
          ⟨["", "/drive", "/drive/wheels"], []⟩ ∧
      (build_wheel "/drive/wheels" "/content" [] buildFails7
        ⟨["build"], [("junk.egg-info", [5])]⟩).copies = [] ∧
      "/drive/wheels" ∈
        (⟨["build", "", "/drive", "/drive/wheels"], [("junk.egg-info", [5])]⟩ : FS).dirs ∧
      (∀ pat ∈ cleanupPatterns, ∀ p, isCwdEntry p = true → globMatch pat p = true →
        ¬ (cleanupStep ⟨["build", "", "/drive", "/drive/wheels"],
            [("junk.egg-info", [5])]⟩).1.isDir p ∧
          ¬ (cleanupStep ⟨["build", "", "/drive", "/drive/wheels"],
            [("junk.egg-info", [5])]⟩).1.isFile p) :=
  failure_paths_not_atomic "/drive/wheels" "/content" [] buildFails7
    ⟨["build"], [("junk.egg-info", [5])]⟩
    ⟨["build", "", "/drive", "/drive/wheels"], [("junk.egg-info", [5])]⟩
    ⟨["", "/drive", "/drive/wheels"], []⟩ 7
    rfl rfl (Or.inl (by decide))

/-- C8: when the output-directory creation succeeds, the single build
subprocess is invoked with exactly the copied environment extended by the
one binding FLASH_ATTENTION_FORCE_BUILD=TRUE: the child environment maps
that key to TRUE and agrees with the parent environment on every other
key. The parent table itself is passed around immutably by the embedding,
matching the fact that the script never writes `os.environ`. -/
theorem build_env_single_flag_augmentation
    (outputDir cwd : String) (osEnv : Env) (build : Env → FS → Nat × FS)
    (fs fs1 : FS)
    (hmk : fs.mkdirParents outputDir = .ok fs1) :
    (build_wheel outputDir cwd osEnv build fs).calls =
      [Call.setupBdistWheel (setEnv osEnv buildFlagKey "TRUE")] ∧
    (setEnv osEnv buildFlagKey "TRUE").lookup buildFlagKey = some "TRUE" ∧
    ∀ k, k ≠ buildFlagKey →
      (setEnv osEnv buildFlagKey "TRUE").lookup k = osEnv.lookup k := by
  obtain ⟨_, _, _, hcalls, _⟩ :=
    build_wheel_unfold outputDir cwd osEnv build fs fs1 hmk
  exact ⟨hcalls.trans (build_wheelBody_calls outputDir cwd osEnv build fs1),
    setEnv_lookup_self osEnv buildFlagKey "TRUE",
    fun k hk => setEnv_lookup_ne osEnv buildFlagKey "TRUE" k hk⟩

/-- Witness for C8 at a concrete parent environment containing PATH and a
stale value of the flag. -/
theorem build_env_single_flag_augmentation_witness :
    (build_wheel "/drive/wheels" "/content"
        [("PATH", "/usr/bin"), ("FLASH_ATTENTION_FORCE_BUILD", "0")]
        buildDepositsNothing FS.empty).calls =
      [Call.setupBdistWheel (setEnv
        [("PATH", "/usr/bin"), ("FLASH_ATTENTION_FORCE_BUILD", "0")]
        buildFlagKey "TRUE")] ∧
    (setEnv [("PATH", "/usr/bin"), ("FLASH_ATTENTION_FORCE_BUILD", "0")]
        buildFlagKey "TRUE").lookup buildFlagKey = some "TRUE" ∧
    (setEnv [("PATH", "/usr/bin"), ("FLASH_ATTENTION_FORCE_BUILD", "0")]
        buildFlagKey "TRUE").lookup "PATH" =
      ([("PATH", "/usr/bin"), ("FLASH_ATTENTION_FORCE_BUILD", "0")] : Env).lookup
        "PATH" :=
  ⟨(build_env_single_flag_augmentation "/drive/wheels" "/content"
      [("PATH", "/usr/bin"), ("FLASH_ATTENTION_FORCE_BUILD", "0")]
      buildDepositsNothing FS.empty ⟨["", "/drive", "/drive/wheels"], []⟩ rfl).1,
    (build_env_single_flag_augmentation "/drive/wheels" "/content"
      [("PATH", "/usr/bin"), ("FLASH_ATTENTION_FORCE_BUILD", "0")]
      buildDepositsNothing FS.empty ⟨["", "/drive", "/drive/wheels"], []⟩ rfl).2.1,
    (build_env_single_flag_augmentation "/drive/wheels" "/content"
      [("PATH", "/usr/bin"), ("FLASH_ATTENTION_FORCE_BUILD", "0")]
      buildDepositsNothing FS.empty ⟨["", "/drive", "/drive/wheels"], []⟩ rfl).2.2
      "PATH" (by decide)⟩

/-- C1: for every run with a valid output directory - one whose creation
succeeds, which exists when the copy happens, and for which the destination
path collides with neither the source wheel nor a directory - where the
build entry point exits 0 and deposits exactly one `*.whl` file in `dist/`,
the script exits with status 0 and the artifact exists, byte-identical to
the built file, at `outputDir/<wheel name>`; exactly that one copy is
performed. -/
theorem build_success_copies_wheel_byte_identical
    (argv : List String) (probe : Probe) (pip : String → Nat) (osEnv : Env)
    (cwd : String) (build : Env → FS → Nat × FS) (fs fs1 fs3 : FS)
    (w : String) (b : Bytes)
    (hargv : 2 ≤ argv.length)
    (htorch : probe.torchVersion.isSome = true)
    (hpip : ∀ d, pip d = 0)
    (hmk : fs.mkdirParents (argv.getD 1 "") = .ok fs1)
    (hbres : build (setEnv osEnv buildFlagKey "TRUE") (cleanupStep fs1).1 = (0, fs3))
    (hw : fs3.distWheels = [w])
    (hfile : fs3.files.lookup w = some b)
    (hneq : w ≠ argv.getD 1 "" ++ "/" ++ baseName w)
    (hdirOut : argv.getD 1 "" ∈ fs3.dirs)
    (hdirDest : argv.getD 1 "" ++ "/" ++ baseName w ∉ fs3.dirs) :
    (main_run argv probe pip osEnv cwd build fs).result = .ok () ∧
      exitCode (main_run argv probe pip osEnv cwd build fs).result = 0 ∧
      (main_run argv probe pip osEnv cwd build fs).fs.files.lookup
        (argv.getD 1 "" ++ "/" ++ baseName w) = some b ∧
      (main_run argv probe pip osEnv cwd build fs).copies =
        [(w, argv.getD 1 "" ++ "/" ++ baseName w)] := by
  obtain ⟨hres, hfs, hcop, _, _⟩ :=
    main_run_build_phase argv probe pip osEnv cwd build fs hargv htorch hpip
  obtain ⟨hbr, hbf, hbc, _, _⟩ :=
    build_wheel_unfold (argv.getD 1 "") cwd osEnv build fs fs1 hmk
  obtain ⟨hr, hf, hc⟩ :=
    build_wheelBody_success (argv.getD 1 "") cwd osEnv build fs1 fs3 w b
      hbres hw hfile hneq hdirOut hdirDest
  have hres1 : (main_run argv probe pip osEnv cwd build fs).result = .ok () := by
    rw [hres, hbr, hr]; rfl
  refine ⟨hres1, by rw [hres1]; rfl, ?_, hcop.trans (hbc.trans hc)⟩
  rw [hfs, hbf, hf]
  exact lookup_setFile_self fs3 _ b

/-- Witness for C1: a concrete full run that builds `dist/a.whl` with bytes
`[1, 2, 3]` and copies it to `/drive/wheels/a.whl`. -/
theorem build_success_copies_wheel_byte_identical_witness :
    (main_run ["build_colab.py", "/drive/wheels"] probeWithTorch pipAllOk []
        "/content" buildDepositsOneWheel FS.empty).result = .ok () ∧
      exitCode (main_run ["build_colab.py", "/drive/wheels"] probeWithTorch
        pipAllOk [] "/content" buildDepositsOneWheel FS.empty).result = 0 ∧
      (main_run ["build_colab.py", "/drive/wheels"] probeWithTorch pipAllOk []
        "/content" buildDepositsOneWheel FS.empty).fs.files.lookup
          ("/drive/wheels" ++ "/" ++ baseName "dist/a.whl") = some [1, 2, 3] ∧
      (main_run ["build_colab.py", "/drive/wheels"] probeWithTorch pipAllOk []
        "/content" buildDepositsOneWheel FS.empty).copies =
          [("dist/a.whl", "/drive/wheels" ++ "/" ++ baseName "dist/a.whl")] :=
  build_success_copies_wheel_byte_identical
    ["build_colab.py", "/drive/wheels"] probeWithTorch pipAllOk [] "/content"
    buildDepositsOneWheel FS.empty ⟨["", "/drive", "/drive/wheels"], []⟩
    ⟨["", "/drive", "/drive/wheels", "dist"], [("dist/a.whl", [1, 2, 3])]⟩
    "dist/a.whl" [1, 2, 3]
    (by decide) rfl (fun d => rfl) rfl rfl (by decide) rfl (by decide)
    (by decide) (by decide)

/-- C2 counterexample: with output directory `x.egg-info` - a caller value
matching the cleanup pattern `*.egg-info` - and a build that exits 0 and
deposits one wheel, the run reaches the copy step (build exit 0 and a
non-empty wheel list), yet at that moment the output directory does not
exist: `mkdir` created it, the cleanup step then deleted it, and the
attempted copy dies with an uncaught `FileNotFoundError`. -/
theorem copy_step_without_output_dir_cex :
    FS.empty.mkdirParents "x.egg-info" = .ok ⟨["x.egg-info"], []⟩ ∧
    (buildDepositsOneWheel (setEnv [] buildFlagKey "TRUE")
        (cleanupStep ⟨["x.egg-info"], []⟩).1).1 = 0 ∧
    ((buildDepositsOneWheel (setEnv [] buildFlagKey "TRUE")
        (cleanupStep ⟨["x.egg-info"], []⟩).1).2).distWheels = ["dist/a.whl"] ∧
    ¬ ((buildDepositsOneWheel (setEnv [] buildFlagKey "TRUE")
        (cleanupStep ⟨["x.egg-info"], []⟩).1).2).isDir "x.egg-info" ∧
    (build_wheel "x.egg-info" "/content" [] buildDepositsOneWheel
      FS.empty).result = .error .fileNotFoundError :=
  ⟨rfl, rfl, rfl, by decide, rfl⟩

/-- C2 (amended): the output directory exists at the moment of the copy
provided no cleanup-pattern-matching working-directory entry equals the
output path or is an ancestor of it, and the build subprocess does not
itself remove the directory; and in every run, if no artifact exists after
the build then none is selected to copy (the script exits 1 with an empty
copy trace). An output path matching `build`, `dist` or `*.egg-info` is
created and then removed by the cleanup step, so the original unrestricted
claim fails (see the counterexample). -/
theorem output_dir_present_at_copy_amended
    (outputDir cwd : String) (osEnv : Env) (build : Env → FS → Nat × FS)
    (fs fs1 fs3 : FS)
    (hmk : fs.mkdirParents outputDir = .ok fs1)
    (hprot : ∀ p ∈ fs1.cwdEntries,
      (cleanupPatterns.any (fun pat => globMatch pat p)) = true →
      outputDir ≠ p ∧ strStartsWith outputDir (p ++ "/") = false)
    (hbres : build (setEnv osEnv buildFlagKey "TRUE") (cleanupStep fs1).1 = (0, fs3))
    (hkeep : outputDir ∈ (cleanupStep fs1).1.dirs → outputDir ∈ fs3.dirs) :
    outputDir ∈ fs3.dirs ∧
    (fs3.distWheels = [] →
      (build_wheel outputDir cwd osEnv build fs).result = .error (.sysExit 1) ∧
      (build_wheel outputDir cwd osEnv build fs).copies = []) := by
  have h1 : outputDir ∈ fs1.dirs := mkdirParents_ok_mem hmk
  have h2 : outputDir ∈ (cleanupStep fs1).1.dirs :=
    cleanupStep_preserves_dir h1 hprot
  refine ⟨hkeep h2, ?_⟩
  intro hw
  obtain ⟨hr, _, hc, _⟩ :=
    build_wheelBody_nowheel outputDir cwd osEnv build fs1 fs3 hbres hw
  obtain ⟨hbr, _, hbc, _, _⟩ :=
    build_wheel_unfold outputDir cwd osEnv build fs fs1 hmk
  exact ⟨hbr.trans hr, hbc.trans hc⟩

/-- Witness for the amended C2: a protected absolute output directory
survives to the moment of the copy; with a build that deposits nothing, no
copy is selected. -/
theorem output_dir_present_at_copy_amended_witness :
    "/drive/wheels" ∈ (⟨["", "/drive", "/drive/wheels"], []⟩ : FS).dirs ∧
    ((⟨["", "/drive", "/drive/wheels"], []⟩ : FS).distWheels = [] →
      (build_wheel "/drive/wheels" "/content" [] buildDepositsNothing
        FS.empty).result = .error (.sysExit 1) ∧
      (build_wheel "/drive/wheels" "/content" [] buildDepositsNothing
        FS.empty).copies = []) :=
  output_dir_present_at_copy_amended "/drive/wheels" "/content" []
    buildDepositsNothing FS.empty ⟨["", "/drive", "/drive/wheels"], []⟩
    ⟨["", "/drive", "/drive/wheels"], []⟩
    rfl (by decide) rfl (by decide)

/-- C5 counterexample: with a pip oracle where upgrading the wheel package
exits 2, `install_build_dependencies` terminates as an uncaught
`CalledProcessError` - not a `sys.exit` - and no output line contains the
words exit code: nothing at the call site catches or reports the failure. -/
theorem installer_failure_uncaught_cex :
    (install_build_dependencies pipFailsOnWheel).1 =
      .error (.calledProcessError 2) ∧
    ((install_build_dependencies pipFailsOnWheel).2.1).all
      (fun l => !(hasSubstring "exit code" l)) = true :=
  ⟨rfl, by decide⟩

theorem installLoop_result_shape (pip : String → Nat) (ds : List String) :
    (installLoop pip ds).1 = .ok () ∨
      ∃ c, c ≠ 0 ∧ (installLoop pip ds).1 = .error (.calledProcessError c) := by
  induction ds with
  | nil => exact Or.inl rfl
  | cons d t ih =>
    by_cases hd : pip d = 0
    · simp only [installLoop, if_pos hd]
      exact ih
    · simp only [installLoop, if_neg hd]
      exact Or.inr ⟨pip d, hd, rfl⟩

theorem install_result_shape (pip : String → Nat) :
    (install_build_dependencies pip).1 = .ok () ∨
      ∃ c, c ≠ 0 ∧ (install_build_dependencies pip).1 =
        .error (.calledProcessError c) := by
  have h := installLoop_result_shape pip dependencies
  simp only [install_build_dependencies]
  exact h

theorem installLoop_out_sub (pip : String → Nat) (ds : List String) :
    ∀ l ∈ (installLoop pip ds).2.1, ∃ d ∈ ds, l = "Installing " ++ d ++ "..." := by
  induction ds with
  | nil =>
    intro l hl
    simp [installLoop] at hl
  | cons d t ih =>
    intro l hl
    by_cases hd : pip d = 0
    · simp only [installLoop, if_pos hd] at hl
      rcases List.mem_cons.mp hl with rfl | hl
      · exact ⟨d, List.mem_cons_self d t, rfl⟩
      · obtain ⟨d', hd', rfl⟩ := ih l hl
        exact ⟨d', List.mem_cons_of_mem d hd', rfl⟩
    · simp only [installLoop, if_neg hd] at hl
      rcases List.mem_cons.mp hl with rfl | hl
      · exact ⟨d, List.mem_cons_self d t, rfl⟩
      · simp at hl

theorem install_out_lines (pip : String → Nat) :
    ∀ l ∈ (install_build_dependencies pip).2.1,
      hasSubstring "exit code" l = false := by
  intro l hl
  simp only [install_build_dependencies, List.append_assoc, List.mem_append,
    List.mem_cons, List.not_mem_nil, or_false] at hl
  rcases hl with (rfl | rfl | rfl) | hl | hl
  · decide
  · decide
  · decide
  · obtain ⟨d, hd, rfl⟩ := installLoop_out_sub pip dependencies l hl
    simp only [dependencies, List.mem_cons, List.not_mem_nil, or_false] at hd
    rcases hd with rfl | rfl | rfl | rfl
    · decide
    · decide
    · decide
    · decide
  · rcases hres : (installLoop pip dependencies).1 with e | u
    · rw [hres] at hl
      simp at hl
    · rw [hres] at hl
      simp only [List.mem_cons, List.not_mem_nil, or_false] at hl
      rw [hl]
      decide

/-- C5 (amended): only the build invocation's failure is caught at the
call site, surfacing the numeric exit code in a message before `sys.exit
1`; a dependency-installer failure is never caught: it always propagates
as an uncaught `CalledProcessError` (never a `sys.exit`), and no installer
output line ever mentions an exit code. -/
theorem subprocess_failure_handling_amended :
    (∀ pip : String → Nat,
      ((install_build_dependencies pip).1 = .ok () ∨
        ∃ c, c ≠ 0 ∧ (install_build_dependencies pip).1 =
          .error (.calledProcessError c)) ∧
      ∀ l ∈ (install_build_dependencies pip).2.1,
        hasSubstring "exit code" l = false) ∧
    (∀ (outputDir cwd : String) (osEnv : Env) (build : Env → FS → Nat × FS)
        (fs1 fs3 : FS) (c : Nat),
      build (setEnv osEnv buildFlagKey "TRUE") (cleanupStep fs1).1 = (c, fs3) →
      c ≠ 0 →
      (build_wheelBody outputDir cwd osEnv build fs1).result =
          .error (.sysExit 1) ∧
        ("✗ Build failed with exit code " ++ toString c) ∈
          (build_wheelBody outputDir cwd osEnv build fs1).out) := by
  constructor
  · intro pip
    exact ⟨install_result_shape pip, install_out_lines pip⟩
  · intro outputDir cwd osEnv build fs1 fs3 c hbres hc
    obtain ⟨h1, _, _, h4⟩ :=
      build_wheelBody_fail outputDir cwd osEnv build fs1 fs3 c hbres hc
    exact ⟨h1, h4⟩

/-- Witness for the amended C5: both halves at concrete oracles - a pip
failure propagates as `CalledProcessError`, and a build failure with exit
code 7 is caught and reported. -/
theorem subprocess_failure_handling_amended_witness :
    ((install_build_dependencies pipFailsOnWheel).1 = .ok () ∨
      ∃ c, c ≠ 0 ∧ (install_build_dependencies pipFailsOnWheel).1 =
        .error (.calledProcessError c)) ∧
    ((build_wheelBody "/drive/wheels" "/content" [] buildFails7 FS.empty).result =
        .error (.sysExit 1) ∧
      ("✗ Build failed with exit code " ++ toString 7) ∈
        (build_wheelBody "/drive/wheels" "/content" [] buildFails7 FS.empty).out) :=
  ⟨(subprocess_failure_handling_amended.1 pipFailsOnWheel).1,
    subprocess_failure_handling_amended.2 "/drive/wheels" "/content" []
      buildFails7 FS.empty (cleanupStep FS.empty).1 7 rfl (by decide)⟩
